import Mathlib

/-!
Shallow embedding of the pricing-and-availability core of the
`lemahotelreservas` hotel-management application (`models.py`, `routes.py`).

Modelling conventions:
* SQLAlchemy `Numeric(10, 2)` money columns are modelled by `ℚ`; the Python
  code performs exact `Decimal` arithmetic on them (no explicit rounding),
  which multiplication and addition of rationals reproduces exactly.
* Calendar dates (`db.Date`) are modelled by `Int` day ordinals: only their
  linear order is ever used by the code.
* Nullable columns and `dict.get` results are modelled with `Option`.
* A database table is a `List` of records; `Model.query.get(pk)` becomes
  `List.find?` on the id, and query filters become list filters.
* `_to_decimal(x or 0)` / `_to_decimal(None)` both yield `0` when the value
  is absent, hence `Option.getD 0` below.
-/

namespace Hotel

/-- Row of `tasas` (`models.Tasa`): a dated exchange-rate record. -/
structure Tasa where
  id : Int
  fecha : Int
  tasa_bs_por_usd : ℚ
  activo : Bool
deriving DecidableEq

/-- Row of `tipos_habitaciones` (`models.TipoHabitacion`). -/
structure TipoHabitacion where
  id : Int
  precio_por_noche_usd : Option ℚ
  precio_por_noche_bs : ℚ
  activo : Bool
deriving DecidableEq

/-- Row of `habitaciones` (`models.Habitacion`); only the fields the
pricing/availability core reads. -/
structure Habitacion where
  id : Int
  tipo_habitacion_id : Int
deriving DecidableEq

/-- Row of `planes_turisticos` (`models.PlanTuristico`). -/
structure PlanTuristico where
  id : Int
  nombre : String
  precio_usd : Option ℚ
  precio_bs : ℚ
  activo : Bool
deriving DecidableEq

/-- Row of `productos_restaurante` (`models.ProductoRestaurante`). -/
structure ProductoRestaurante where
  id : Int
  nombre : String
  precio_unitario_usd : Option ℚ
  precio_unitario_bs : ℚ
  activo : Bool
deriving DecidableEq

/-- Row of `reservaciones` (`models.Reservacion`). -/
structure Reservacion where
  id : Int
  cliente_id : Int
  habitacion_id : Int
  usuario_id : Int
  fecha_entrada : Int
  fecha_salida : Int
  estado : String
  precio_por_noche_usd : Option ℚ
  precio_por_noche_bs : ℚ
deriving DecidableEq

/-- Row of `ventas` (`models.Venta`); the monetary and classification
fields the core computes. -/
structure Venta where
  cliente_id : Int
  usuario_id : Int
  tipo : String
  reservacion_id : Option Int
  subtotal_usd : Option ℚ
  subtotal_bs : ℚ
  impuesto_usd : Option ℚ
  impuesto_bs : ℚ
  total_usd : Option ℚ
  total_bs : ℚ
  metodo_pago : Option String
  estado : String
deriving DecidableEq

/-- Row of `ventas_detalle` (`models.VentaDetalle`). -/
structure VentaDetalle where
  producto_restaurante_id : Option Int
  plan_turistico_id : Option Int
  cantidad : Int
  precio_unitario_usd : Option ℚ
  precio_unitario_bs : ℚ
  total_usd : Option ℚ
  total_bs : ℚ
  descripcion : Option String
deriving DecidableEq

/-- The persisted tables the core routes touch. -/
structure Sistema where
  tasas : List Tasa
  tipos : List TipoHabitacion
  habitaciones : List Habitacion
  planes : List PlanTuristico
  productos : List ProductoRestaurante
  reservaciones : List Reservacion
  ventas : List Venta
  detalles : List VentaDetalle
deriving DecidableEq

/-- The `usd * tasa_valor` conversion the routes apply everywhere a Bs
amount is derived from a USD amount (exact `Decimal` multiplication in the
source, no rounding step). -/
def convertir (usd tasaValor : ℚ) : ℚ :=
  usd * tasaValor

/-- Auxiliary for `_obtener_tasa_actual`: the record that `ORDER BY fecha
DESC, id DESC` would place first among `b :: l`. -/
def masReciente (b : Tasa) : List Tasa → Tasa
  | [] => b
  | t :: l =>
    if b.fecha < t.fecha ∨ (b.fecha = t.fecha ∧ b.id < t.id) then masReciente t l
    else masReciente b l

/-- `_obtener_tasa_actual` (routes.py:37-43): the `activo` record with the
greatest `fecha`, ties broken by greatest `id`; `none` when no active
record exists. -/
def obtenerTasaActual (tasas : List Tasa) : Option Tasa :=
  match tasas.filter (·.activo) with
  | [] => none
  | t :: l => some (masReciente t l)

/-- The row filter of the conflict query inside `_habitacion_disponible`
(routes.py:75-84): same room, not cancelled, half-open overlap with
`[fe, fs)`, and not the excluded reservation. -/
def conflictoCon (habitacionId : Int) (fe fs : Int) (excluir : Option Int)
    (r : Reservacion) : Bool :=
  (r.habitacion_id == habitacionId) && !(r.estado == "cancelada") &&
    decide (r.fecha_entrada < fs) && decide (fe < r.fecha_salida) &&
    (match excluir with
     | none => true
     | some e => !(r.id == e))

/-- `_habitacion_disponible` (routes.py:65-85).  The `Option Int`
arguments are the results of `_parse_fecha`: `none` stands for an input
that failed to parse as a calendar date. -/
def habitacionDisponible (reservaciones : List Reservacion) (habitacionId : Int)
    (fechaEntrada fechaSalida : Option Int) (excluir : Option Int) : Bool :=
  match fechaEntrada, fechaSalida with
  | some fe, some fs =>
    if fs ≤ fe then false
    else !(reservaciones.any (conflictoCon habitacionId fe fs excluir))
  | _, _ => false

/-- `x` sorts at or below `y` under `ORDER BY fecha DESC, id DESC`. -/
def lexAntes (x y : Tasa) : Prop :=
  x.fecha < y.fecha ∨ (x.fecha = y.fecha ∧ x.id ≤ y.id)

theorem lexAntes_trans (x y z : Tasa) (h1 : lexAntes x y) (h2 : lexAntes y z) :
    lexAntes x z := by
  simp only [lexAntes] at h1 h2 ⊢
  omega

theorem lexAntes_of_not_lt (b t : Tasa)
    (h : ¬ (b.fecha < t.fecha ∨ (b.fecha = t.fecha ∧ b.id < t.id))) :
    lexAntes t b := by
  simp only [lexAntes]
  omega

theorem masReciente_mem (b : Tasa) (l : List Tasa) : masReciente b l ∈ b :: l := by
  induction l generalizing b with
  | nil => simp [masReciente]
  | cons t l ih =>
    simp only [masReciente]
    split
    · rcases List.mem_cons.1 (ih t) with h | h
      · rw [h]; simp
      · simp [List.mem_cons, h]
    · rcases List.mem_cons.1 (ih b) with h | h
      · rw [h]; simp
      · simp [List.mem_cons, h]

theorem masReciente_ge (b : Tasa) (l : List Tasa) :
    ∀ x ∈ b :: l, lexAntes x (masReciente b l) := by
  induction l generalizing b with
  | nil =>
    intro x hx
    simp only [List.mem_singleton] at hx
    subst hx
    simp [masReciente, lexAntes]
  | cons t l ih =>
    intro x hx
    simp only [masReciente]
    by_cases hc : b.fecha < t.fecha ∨ (b.fecha = t.fecha ∧ b.id < t.id)
    · rw [if_pos hc]
      rcases List.mem_cons.1 hx with hx1 | hx1
      · rw [hx1]
        refine lexAntes_trans b t _ ?_ (ih t t (by simp))
        simp only [lexAntes]
        omega
      · exact ih t x hx1
    · rw [if_neg hc]
      rcases List.mem_cons.1 hx with hx1 | hx1
      · rw [hx1]
        exact ih b b (by simp)
      · rcases List.mem_cons.1 hx1 with hx2 | hx2
        · rw [hx2]
          exact lexAntes_trans t b _ (lexAntes_of_not_lt b t hc) (ih b b (by simp))
        · exact ih b x (by simp [hx2])

/-- C5: the current-rate query returns the active record with the greatest
effective date, ties broken by the greatest identifier, and returns `none`
exactly when no active record exists; in particular, over a ledger holding
active rates `r1` (earlier date) and `r2` (later date) it returns `r2`. -/
theorem tasaActual_caracterizacion (tasas : List Tasa) :
    (obtenerTasaActual tasas = none ↔ ∀ t ∈ tasas, t.activo = false) ∧
    (∀ t, obtenerTasaActual tasas = some t →
      t ∈ tasas ∧ t.activo = true ∧
      ∀ r ∈ tasas, r.activo = true →
        r.fecha < t.fecha ∨ (r.fecha = t.fecha ∧ r.id ≤ t.id)) ∧
    (∀ r1 r2 : Tasa, r1.activo = true → r2.activo = true → r1.fecha < r2.fecha →
      obtenerTasaActual [r1, r2] = some r2) := by
  refine ⟨?_, ?_, ?_⟩
  · constructor
    · intro h t ht
      by_contra hact
      have hmem : t ∈ tasas.filter (·.activo) := by
        rw [List.mem_filter]
        refine ⟨ht, ?_⟩
        simpa using hact
      rcases hfil : tasas.filter (·.activo) with _ | ⟨a, l⟩
      · rw [hfil] at hmem; cases hmem
      · simp [obtenerTasaActual, hfil] at h
    · intro h
      rcases hfil : tasas.filter (·.activo) with _ | ⟨a, l⟩
      · simp [obtenerTasaActual, hfil]
      · have ha : a ∈ tasas.filter (·.activo) := by rw [hfil]; simp
        rw [List.mem_filter] at ha
        have h2 := h a ha.1
        have h3 := ha.2
        simp only [h2] at h3
        cases h3
  · intro t ht
    rcases hfil : tasas.filter (·.activo) with _ | ⟨a, l⟩
    · simp [obtenerTasaActual, hfil] at ht
    · simp only [obtenerTasaActual, hfil, Option.some.injEq] at ht
      have hmem : t ∈ a :: l := ht ▸ masReciente_mem a l
      have hmemf : t ∈ tasas.filter (·.activo) := by rw [hfil]; exact hmem
      rw [List.mem_filter] at hmemf
      refine ⟨hmemf.1, by simpa using hmemf.2, ?_⟩
      intro r hr hract
      have hrf : r ∈ a :: l := by
        rw [← hfil, List.mem_filter]
        exact ⟨hr, by simp [hract]⟩
      have hge := masReciente_ge a l r hrf
      rw [ht] at hge
      simpa [lexAntes] using hge
  · intro r1 r2 h1 h2 hlt
    have hfil : [r1, r2].filter (·.activo) = [r1, r2] := by
      simp [List.filter, h1, h2]
    simp only [obtenerTasaActual, hfil, masReciente]
    rw [if_pos (Or.inl hlt)]

/-- Witness for C5 at a concrete two-record ledger. -/
theorem tasaActual_caracterizacion_aplicada :
    obtenerTasaActual
      [⟨1, 10, 35, true⟩, ⟨2, 20, 40, true⟩] = some ⟨2, 20, 40, true⟩ :=
  (tasaActual_caracterizacion [⟨1, 10, 35, true⟩, ⟨2, 20, 40, true⟩]).2.2
    ⟨1, 10, 35, true⟩ ⟨2, 20, 40, true⟩ rfl rfl (by decide)

/-- C1: availability fails closed on unparseable dates and on
`check_in ≥ check_out`; otherwise it is false exactly when a non-cancelled,
non-excluded reservation of the same room overlaps the half-open range, and
a room whose reservations all end by `check_in` or start at or after
`check_out` (back-to-back stays) is reported available. -/
theorem habitacionDisponible_correcta (rs : List Reservacion) (hid : Int)
    (fe fs : Option Int) (ex : Option Int) :
    ((fe = none ∨ fs = none) → habitacionDisponible rs hid fe fs ex = false) ∧
    (∀ a b, fe = some a → fs = some b → b ≤ a →
      habitacionDisponible rs hid fe fs ex = false) ∧
    (∀ a b, fe = some a → fs = some b → a < b →
      (habitacionDisponible rs hid fe fs ex = false ↔
        ∃ r ∈ rs, r.habitacion_id = hid ∧ r.estado ≠ "cancelada" ∧
          (∀ e, ex = some e → r.id ≠ e) ∧ r.fecha_entrada < b ∧ a < r.fecha_salida)) ∧
    (∀ a b, fe = some a → fs = some b → a < b →
      (∀ r ∈ rs, r.habitacion_id = hid → r.estado ≠ "cancelada" →
        (∀ e, ex = some e → r.id ≠ e) →
        r.fecha_salida ≤ a ∨ b ≤ r.fecha_entrada) →
      habitacionDisponible rs hid fe fs ex = true) := by
  have hconf : ∀ a b r, (conflictoCon hid a b ex r = true ↔
      r.habitacion_id = hid ∧ r.estado ≠ "cancelada" ∧
        (∀ e, ex = some e → r.id ≠ e) ∧ r.fecha_entrada < b ∧ a < r.fecha_salida) := by
    intro a b r
    cases ex with
    | none => simp [conflictoCon, and_assoc]
    | some e =>
      simp [conflictoCon, and_assoc]
      tauto
  refine ⟨?_, ?_, ?_, ?_⟩
  · rintro (h | h)
    · subst h; cases fs <;> rfl
    · subst h; cases fe <;> rfl
  · intro a b ha hb hba
    subst ha; subst hb
    simp only [habitacionDisponible]
    rw [if_pos hba]
  · intro a b ha hb hab
    subst ha; subst hb
    have hnb : ¬ b ≤ a := by omega
    simp only [habitacionDisponible]
    rw [if_neg hnb]
    simp only [Bool.not_eq_false', List.any_eq_true]
    constructor
    · rintro ⟨r, hr, hc⟩
      exact ⟨r, hr, (hconf a b r).1 hc⟩
    · rintro ⟨r, hr, hc⟩
      exact ⟨r, hr, (hconf a b r).2 hc⟩
  · intro a b ha hb hab hsep
    subst ha; subst hb
    have hnb : ¬ b ≤ a := by omega
    simp only [habitacionDisponible]
    rw [if_neg hnb]
    simp only [Bool.not_eq_true', List.any_eq_false]
    intro r hr
    intro hc
    obtain ⟨h1, h2, h3, h4, h5⟩ := (hconf a b r).1 hc
    rcases hsep r hr h1 h2 h3 with h | h <;> omega

/-- Witness for C1: a back-to-back request against a concrete reservation
ending exactly on the requested check-in is available. -/
theorem habitacionDisponible_correcta_aplicada :
    habitacionDisponible
      [⟨1, 1, 7, 1, 10, 15, "confirmada", some 100, 4000⟩] 7
      (some 15) (some 20) none = true :=
  (habitacionDisponible_correcta _ 7 (some 15) (some 20) none).2.2.2 15 20 rfl rfl
    (by decide) (by decide)

/-- Step of `actualizar_precios_con_tasa` for one `TipoHabitacion`
(routes.py:594-596). -/
def recalcularTipo (v : ℚ) (x : TipoHabitacion) : TipoHabitacion :=
  match x.precio_por_noche_usd with
  | some p => { x with precio_por_noche_bs := convertir p v }
  | none => x

/-- Step of `actualizar_precios_con_tasa` for one `PlanTuristico`
(routes.py:599-601). -/
def recalcularPlan (v : ℚ) (x : PlanTuristico) : PlanTuristico :=
  match x.precio_usd with
  | some p => { x with precio_bs := convertir p v }
  | none => x

/-- Step of `actualizar_precios_con_tasa` for one `ProductoRestaurante`
(routes.py:604-606). -/
def recalcularProducto (v : ℚ) (x : ProductoRestaurante) : ProductoRestaurante :=
  match x.precio_unitario_usd with
  | some p => { x with precio_unitario_bs := convertir p v }
  | none => x

/-- Step of `actualizar_precios_con_tasa` for one `Reservacion`
(routes.py:609-611). -/
def recalcularReservacion (v : ℚ) (x : Reservacion) : Reservacion :=
  match x.precio_por_noche_usd with
  | some p => { x with precio_por_noche_bs := convertir p v }
  | none => x

/-- Step of `actualizar_precios_con_tasa` for one `Venta`
(routes.py:614-620): three independent field guards. -/
def recalcularVenta (v : ℚ) (x : Venta) : Venta :=
  let x1 := match x.subtotal_usd with
    | some p => { x with subtotal_bs := convertir p v }
    | none => x
  let x2 := match x1.impuesto_usd with
    | some p => { x1 with impuesto_bs := convertir p v }
    | none => x1
  match x2.total_usd with
  | some p => { x2 with total_bs := convertir p v }
  | none => x2

/-- Step of `actualizar_precios_con_tasa` for one `VentaDetalle`
(routes.py:623-627). -/
def recalcularDetalle (v : ℚ) (x : VentaDetalle) : VentaDetalle :=
  let x1 := match x.precio_unitario_usd with
    | some p => { x with precio_unitario_bs := convertir p v }
    | none => x
  match x1.total_usd with
  | some p => { x1 with total_bs := convertir p v }
  | none => x1

/-- `actualizar_precios_con_tasa` (routes.py:581-631): with no active rate
the route flashes an error and changes nothing; otherwise every table's Bs
fields are recomputed from the USD fields with the active rate. -/
def actualizarPreciosConTasa (s : Sistema) : Sistema :=
  match obtenerTasaActual s.tasas with
  | none => s
  | some t =>
    let v := t.tasa_bs_por_usd
    { s with
      tipos := s.tipos.map (recalcularTipo v)
      planes := s.planes.map (recalcularPlan v)
      productos := s.productos.map (recalcularProducto v)
      reservaciones := s.reservaciones.map (recalcularReservacion v)
      ventas := s.ventas.map (recalcularVenta v)
      detalles := s.detalles.map (recalcularDetalle v) }

theorem actualizarPreciosConTasa_eq_some (s : Sistema) (t : Tasa)
    (h : obtenerTasaActual s.tasas = some t) :
    actualizarPreciosConTasa s =
      { s with
        tipos := s.tipos.map (recalcularTipo t.tasa_bs_por_usd)
        planes := s.planes.map (recalcularPlan t.tasa_bs_por_usd)
        productos := s.productos.map (recalcularProducto t.tasa_bs_por_usd)
        reservaciones := s.reservaciones.map (recalcularReservacion t.tasa_bs_por_usd)
        ventas := s.ventas.map (recalcularVenta t.tasa_bs_por_usd)
        detalles := s.detalles.map (recalcularDetalle t.tasa_bs_por_usd) } := by
  simp [actualizarPreciosConTasa, h]

theorem recalcularTipo_idem (v : ℚ) (x : TipoHabitacion) :
    recalcularTipo v (recalcularTipo v x) = recalcularTipo v x := by
  rcases x with ⟨i, usd, bs, a⟩
  cases usd <;> rfl

theorem recalcularPlan_idem (v : ℚ) (x : PlanTuristico) :
    recalcularPlan v (recalcularPlan v x) = recalcularPlan v x := by
  rcases x with ⟨i, n, usd, bs, a⟩
  cases usd <;> rfl

theorem recalcularProducto_idem (v : ℚ) (x : ProductoRestaurante) :
    recalcularProducto v (recalcularProducto v x) = recalcularProducto v x := by
  rcases x with ⟨i, n, usd, bs, a⟩
  cases usd <;> rfl

theorem recalcularReservacion_idem (v : ℚ) (x : Reservacion) :
    recalcularReservacion v (recalcularReservacion v x) = recalcularReservacion v x := by
  rcases x with ⟨i, c, hb, u, f1, f2, e, usd, bs⟩
  cases usd <;> rfl

theorem recalcularVenta_idem (v : ℚ) (x : Venta) :
    recalcularVenta v (recalcularVenta v x) = recalcularVenta v x := by
  rcases x with ⟨c, u, ti, ri, su, sb, iu, ib, tu, tb, mp, e⟩
  cases su <;> cases iu <;> cases tu <;> rfl

theorem recalcularDetalle_idem (v : ℚ) (x : VentaDetalle) :
    recalcularDetalle v (recalcularDetalle v x) = recalcularDetalle v x := by
  rcases x with ⟨pr, pl, c, pu, pb, tu, tb, d⟩
  cases pu <;> cases tu <;> rfl

/-- C3: with an active rate `t`, the bulk recompute rewrites exactly the
Bs-denominated field of every room type, plan, product, reservation, sale
and sale line to its USD counterpart times the rate, leaves every other
field (in particular every USD field) untouched, and leaves records whose
USD field is absent entirely unchanged. -/
theorem actualizarPrecios_recalculo (s : Sistema) (t : Tasa)
    (h : obtenerTasaActual s.tasas = some t) :
    (actualizarPreciosConTasa s).tipos = s.tipos.map (fun x =>
      { x with precio_por_noche_bs :=
          match x.precio_por_noche_usd with
          | some p => p * t.tasa_bs_por_usd
          | none => x.precio_por_noche_bs }) ∧
    (actualizarPreciosConTasa s).planes = s.planes.map (fun x =>
      { x with precio_bs :=
          match x.precio_usd with
          | some p => p * t.tasa_bs_por_usd
          | none => x.precio_bs }) ∧
    (actualizarPreciosConTasa s).productos = s.productos.map (fun x =>
      { x with precio_unitario_bs :=
          match x.precio_unitario_usd with
          | some p => p * t.tasa_bs_por_usd
          | none => x.precio_unitario_bs }) ∧
    (actualizarPreciosConTasa s).reservaciones = s.reservaciones.map (fun x =>
      { x with precio_por_noche_bs :=
          match x.precio_por_noche_usd with
          | some p => p * t.tasa_bs_por_usd
          | none => x.precio_por_noche_bs }) ∧
    (actualizarPreciosConTasa s).ventas = s.ventas.map (fun x =>
      { x with
          subtotal_bs :=
            match x.subtotal_usd with
            | some p => p * t.tasa_bs_por_usd
            | none => x.subtotal_bs
          impuesto_bs :=
            match x.impuesto_usd with
            | some p => p * t.tasa_bs_por_usd
            | none => x.impuesto_bs
          total_bs :=
            match x.total_usd with
            | some p => p * t.tasa_bs_por_usd
            | none => x.total_bs }) ∧
    (actualizarPreciosConTasa s).detalles = s.detalles.map (fun x =>
      { x with
          precio_unitario_bs :=
            match x.precio_unitario_usd with
            | some p => p * t.tasa_bs_por_usd
            | none => x.precio_unitario_bs
          total_bs :=
            match x.total_usd with
            | some p => p * t.tasa_bs_por_usd
            | none => x.total_bs }) := by
  rw [actualizarPreciosConTasa_eq_some s t h]
  refine ⟨?_, ?_, ?_, ?_, ?_, ?_⟩
  · apply List.map_congr_left
    intro x _
    rcases x with ⟨i, usd, bs, a⟩
    cases usd <;> simp [recalcularTipo, convertir]
  · apply List.map_congr_left
    intro x _
    rcases x with ⟨i, n, usd, bs, a⟩
    cases usd <;> simp [recalcularPlan, convertir]
  · apply List.map_congr_left
    intro x _
    rcases x with ⟨i, n, usd, bs, a⟩
    cases usd <;> simp [recalcularProducto, convertir]
  · apply List.map_congr_left
    intro x _
    rcases x with ⟨i, c, hb, u, f1, f2, e, usd, bs⟩
    cases usd <;> simp [recalcularReservacion, convertir]
  · apply List.map_congr_left
    intro x _
    rcases x with ⟨c, u, ti, ri, su, sb, iu, ib, tu, tb, mp, e⟩
    cases su <;> cases iu <;> cases tu <;> simp [recalcularVenta, convertir]
  · apply List.map_congr_left
    intro x _
    rcases x with ⟨pr, pl, c, pu, pb, tu, tb, d⟩
    cases pu <;> cases tu <;> simp [recalcularDetalle, convertir]

/-- Witness for C3 at a concrete one-row-per-table state. -/
theorem actualizarPrecios_recalculo_aplicado :
    (actualizarPreciosConTasa
        { tasas := [⟨1, 10, 40, true⟩]
          tipos := [⟨1, some 100, 0, true⟩]
          habitaciones := [⟨1, 1⟩]
          planes := [⟨1, "tour", some 50, 0, true⟩]
          productos := [⟨1, "cafe", none, 7, true⟩]
          reservaciones := []
          ventas := []
          detalles := [] }).tipos = [⟨1, some 100, 4000, true⟩] := by
  have h := (actualizarPrecios_recalculo
    { tasas := [⟨1, 10, 40, true⟩]
      tipos := [⟨1, some 100, 0, true⟩]
      habitaciones := [⟨1, 1⟩]
      planes := [⟨1, "tour", some 50, 0, true⟩]
      productos := [⟨1, "cafe", none, 7, true⟩]
      reservaciones := []
      ventas := []
      detalles := [] } ⟨1, 10, 40, true⟩ rfl).1
  rw [h]
  norm_num

/-- C4: the bulk recompute is idempotent — a second run under the
unchanged rate ledger alters nothing. -/
theorem actualizarPrecios_idempotente (s : Sistema) :
    actualizarPreciosConTasa (actualizarPreciosConTasa s) = actualizarPreciosConTasa s := by
  cases h : obtenerTasaActual s.tasas with
  | none =>
    have h1 : actualizarPreciosConTasa s = s := by
      simp [actualizarPreciosConTasa, h]
    rw [h1, h1]
  | some t =>
    have h2 : obtenerTasaActual (actualizarPreciosConTasa s).tasas = some t := by
      rw [actualizarPreciosConTasa_eq_some s t h]
      exact h
    rw [actualizarPreciosConTasa_eq_some _ t h2,
      actualizarPreciosConTasa_eq_some s t h]
    simp only [List.map_map]
    congr 1
    · apply List.map_congr_left
      intro x _
      exact recalcularTipo_idem _ x
    · apply List.map_congr_left
      intro x _
      exact recalcularPlan_idem _ x
    · apply List.map_congr_left
      intro x _
      exact recalcularProducto_idem _ x
    · apply List.map_congr_left
      intro x _
      exact recalcularReservacion_idem _ x
    · apply List.map_congr_left
      intro x _
      exact recalcularVenta_idem _ x
    · apply List.map_congr_left
      intro x _
      exact recalcularDetalle_idem _ x

/-- JSON body of `POST /api/reservaciones`; outer `none` marks an absent
key.  For the two date fields the inner `Option Int` is the result
`_parse_fecha` would give for the present value (`none` = not a valid
calendar date). -/
structure ReservaRequest where
  cliente_id : Option Int
  habitacion_id : Option Int
  usuario_id : Option Int
  fecha_entrada : Option (Option Int)
  fecha_salida : Option (Option Int)
  estado : Option String
  observaciones : Option String
deriving DecidableEq

/-- `api_crear_reservacion` (routes.py:747-808): the HTTP status together
with the reservation row committed on success (`none` on every error
status).  `nuevoId` is the primary key the database would assign. -/
def apiCrearReservacion (s : Sistema) (nuevoId : Int) (req : ReservaRequest) :
    Nat × Option Reservacion :=
  match req.cliente_id, req.habitacion_id, req.usuario_id,
      req.fecha_entrada, req.fecha_salida with
  | some cid, some hid, some uid, some feRaw, some fsRaw =>
    match obtenerTasaActual s.tasas with
    | none => (400, none)
    | some tasa =>
      match s.habitaciones.find? (fun hb => hb.id == hid) with
      | none => (404, none)
      | some hab =>
        match s.tipos.find? (fun tp => tp.id == hab.tipo_habitacion_id) with
        | none => (400, none)
        | some tp =>
          let precioUsd := tp.precio_por_noche_usd.getD 0
          if precioUsd ≤ 0 then (400, none)
          else
            match feRaw, fsRaw with
            | some fe, some fs =>
              if fs ≤ fe then (400, none)
              else if habitacionDisponible s.reservaciones hid (some fe) (some fs) none then
                (201, some
                  { id := nuevoId
                    cliente_id := cid
                    habitacion_id := hid
                    usuario_id := uid
                    fecha_entrada := fe
                    fecha_salida := fs
                    estado := req.estado.getD "confirmada"
                    precio_por_noche_usd := some precioUsd
                    precio_por_noche_bs := convertir precioUsd tasa.tasa_bs_por_usd })
              else (409, none)
            | _, _ => (400, none)
  | _, _, _, _, _ => (400, none)

/-- Status assignment obtained by reading claim C2's error conditions in
the order it states them: missing fields or unparseable/inverted dates
400, then missing room 404, then missing/non-positive type price 400, then
missing active rate 400, then unavailability 409, else 201.  Written for
comparison against `apiCrearReservacion`, which checks in a different
order. -/
def statusReservaSegunClaim (s : Sistema) (req : ReservaRequest) : Nat :=
  match req.cliente_id, req.habitacion_id, req.usuario_id,
      req.fecha_entrada, req.fecha_salida with
  | some _, some hid, some _, some feRaw, some fsRaw =>
    match feRaw, fsRaw with
    | some fe, some fs =>
      if fs ≤ fe then 400
      else
        match s.habitaciones.find? (fun hb => hb.id == hid) with
        | none => 404
        | some hab =>
          match s.tipos.find? (fun tp => tp.id == hab.tipo_habitacion_id) with
          | none => 400
          | some tp =>
            if tp.precio_por_noche_usd.getD 0 ≤ 0 then 400
            else
              match obtenerTasaActual s.tasas with
              | none => 400
              | some _ =>
                if habitacionDisponible s.reservaciones hid (some fe) (some fs) none then 201
                else 409
    | _, _ => 400
  | _, _, _, _, _ => 400

/-- State for the C2 counterexample: one active rate, no rooms. -/
def sistContraC2 : Sistema :=
  { tasas := [⟨1, 0, 40, true⟩]
    tipos := []
    habitaciones := []
    planes := []
    productos := []
    reservaciones := []
    ventas := []
    detalles := [] }

/-- Request for the C2 counterexample: all required keys present, check-in
unparseable, room id dangling. -/
def reqContraC2 : ReservaRequest :=
  { cliente_id := some 1
    habitacion_id := some 1
    usuario_id := some 1
    fecha_entrada := some none
    fecha_salida := some (some 5)
    estado := none
    observaciones := none }

/-- Counterexample to C2 as stated: on a request whose check-in date is
unparseable but whose room id matches no room (with an active rate
present), the claim's condition order yields 400 while the endpoint
returns 404 — the code resolves the room before parsing the dates. -/
theorem apiCrearReservacion_contraejemploOrden :
    statusReservaSegunClaim sistContraC2 reqContraC2 = 400 ∧
    apiCrearReservacion sistContraC2 1 reqContraC2 = (404, none) :=
  ⟨rfl, rfl⟩

/-- C2 (amended): the endpoint checks, in order — missing required field
400; no active rate 400; unknown room 404; room type missing 400; type
price absent or not positive 400; unparseable dates 400; check-in at or
after check-out 400; room unavailable 409; otherwise 201 with the nightly
price snapshotted as (usd, usd × active rate).  Any returned row comes
with status 201, so nothing is persisted on an error status. -/
theorem apiCrearReservacion_ordenCorregido (s : Sistema) (nid : Int)
    (req : ReservaRequest) :
    (req.cliente_id = none ∨ req.habitacion_id = none ∨ req.usuario_id = none ∨
        req.fecha_entrada = none ∨ req.fecha_salida = none →
      apiCrearReservacion s nid req = (400, none)) ∧
    (∀ cid hid uid feRaw fsRaw,
      req.cliente_id = some cid → req.habitacion_id = some hid →
      req.usuario_id = some uid → req.fecha_entrada = some feRaw →
      req.fecha_salida = some fsRaw →
      (obtenerTasaActual s.tasas = none →
        apiCrearReservacion s nid req = (400, none)) ∧
      (∀ tasa, obtenerTasaActual s.tasas = some tasa →
        (s.habitaciones.find? (fun hb => hb.id == hid) = none →
          apiCrearReservacion s nid req = (404, none)) ∧
        (∀ hab, s.habitaciones.find? (fun hb => hb.id == hid) = some hab →
          (s.tipos.find? (fun tp => tp.id == hab.tipo_habitacion_id) = none →
            apiCrearReservacion s nid req = (400, none)) ∧
          (∀ tp, s.tipos.find? (fun tp2 => tp2.id == hab.tipo_habitacion_id) = some tp →
            (tp.precio_por_noche_usd.getD 0 ≤ 0 →
              apiCrearReservacion s nid req = (400, none)) ∧
            (0 < tp.precio_por_noche_usd.getD 0 →
              (feRaw = none ∨ fsRaw = none →
                apiCrearReservacion s nid req = (400, none)) ∧
              (∀ fe fs, feRaw = some fe → fsRaw = some fs →
                (fs ≤ fe → apiCrearReservacion s nid req = (400, none)) ∧
                (fe < fs →
                  (habitacionDisponible s.reservaciones hid (some fe) (some fs) none = false →
                    apiCrearReservacion s nid req = (409, none)) ∧
                  (habitacionDisponible s.reservaciones hid (some fe) (some fs) none = true →
                    apiCrearReservacion s nid req = (201, some
                      { id := nid
                        cliente_id := cid
                        habitacion_id := hid
                        usuario_id := uid
                        fecha_entrada := fe
                        fecha_salida := fs
                        estado := req.estado.getD "confirmada"
                        precio_por_noche_usd := some (tp.precio_por_noche_usd.getD 0)
                        precio_por_noche_bs :=
                          tp.precio_por_noche_usd.getD 0 * tasa.tasa_bs_por_usd }))))))))) ∧
    (∀ st r, apiCrearReservacion s nid req = (st, some r) → st = 201) := by
  refine ⟨?_, ?_, ?_⟩
  · intro h
    obtain ⟨c, hb, u, fer, fsr, est, obs⟩ := req
    rcases c with _ | c <;> rcases hb with _ | hb <;> rcases u with _ | u <;>
      rcases fer with _ | fer <;> rcases fsr with _ | fsr <;>
      first
        | rfl
        | simp at h
  · intro cid hid uid feRaw fsRaw h1 h2 h3 h4 h5
    refine ⟨?_, ?_⟩
    · intro htasa
      simp [apiCrearReservacion, h1, h2, h3, h4, h5, htasa]
    · intro tasa htasa
      refine ⟨?_, ?_⟩
      · intro hhab
        simp [apiCrearReservacion, h1, h2, h3, h4, h5, htasa, hhab]
      · intro hab hhab
        refine ⟨?_, ?_⟩
        · intro htp
          simp [apiCrearReservacion, h1, h2, h3, h4, h5, htasa, hhab, htp]
        · intro tp htp
          refine ⟨?_, ?_⟩
          · intro hple
            simp [apiCrearReservacion, h1, h2, h3, h4, h5, htasa, hhab, htp, hple]
          · intro hpos
            have hnle : ¬ tp.precio_por_noche_usd.getD 0 ≤ 0 := not_le.mpr hpos
            refine ⟨?_, ?_⟩
            · rintro (hfe | hfe) <;>
                simp [apiCrearReservacion, h1, h2, h3, h4, h5, htasa, hhab, htp,
                  hnle, hfe]
            · intro fe fs hfe hfs
              refine ⟨?_, ?_⟩
              · intro hba
                simp [apiCrearReservacion, h1, h2, h3, h4, h5, htasa, hhab, htp,
                  hnle, hfe, hfs, hba]
              · intro hab2
                have hnba : ¬ fs ≤ fe := not_le.mpr hab2
                refine ⟨?_, ?_⟩
                · intro hdisp
                  simp [apiCrearReservacion, h1, h2, h3, h4, h5, htasa, hhab, htp,
                    hnle, hfe, hfs, hnba, hdisp]
                · intro hdisp
                  simp [apiCrearReservacion, h1, h2, h3, h4, h5, htasa, hhab, htp,
                    hnle, hfe, hfs, hnba, hdisp, convertir]
  · intro st r h
    unfold apiCrearReservacion at h
    repeat' split at h
    all_goals try simp_all
    all_goals split at h <;> simp_all

/-- State for the C2 witness: one active rate, one priced room. -/
def sistExitoC2 : Sistema :=
  { tasas := [⟨1, 0, 40, true⟩]
    tipos := [⟨1, some 100, 0, true⟩]
    habitaciones := [⟨5, 1⟩]
    planes := []
    productos := []
    reservaciones := []
    ventas := []
    detalles := [] }

/-- Request for the C2 witness: a well-formed creation request. -/
def reqExitoC2 : ReservaRequest :=
  { cliente_id := some 2
    habitacion_id := some 5
    usuario_id := some 3
    fecha_entrada := some (some 10)
    fecha_salida := some (some 12)
    estado := none
    observaciones := none }

/-- Witness for the amended C2 on a concrete successful creation. -/
theorem apiCrearReservacion_ordenCorregido_aplicado :
    apiCrearReservacion sistExitoC2 9 reqExitoC2 =
      (201, some ⟨9, 2, 5, 3, 10, 12, "confirmada", some 100, 4000⟩) := by
  have h := ((((((apiCrearReservacion_ordenCorregido sistExitoC2 9 reqExitoC2).2.1
    2 5 3 (some 10) (some 12) rfl rfl rfl rfl rfl).2
    ⟨1, 0, 40, true⟩ rfl).2 ⟨5, 1⟩ rfl).2 ⟨1, some 100, 0, true⟩ rfl).2
    (by norm_num)).2 10 12 rfl rfl
  have h2 := (h.2 (by norm_num)).2 rfl
  rw [h2]
  norm_num [reqExitoC2]

/-- One index of the parallel form arrays `item_tipo[] / item_id[] /
item_cantidad[]` read by `_procesar_items_venta`.  `tipo` holds the value
after the source's normalisation `(tipos[i] or '').strip().lower()`
(routes.py:1150).  `parsed` bundles the outcomes of `int(ids[i])` and
`int(cantidades[i])` — with the source's defaults `0` and `1` for an index
past the shorter array — and is `none` when either conversion raises,
which skips the index. -/
structure ItemVentaForm where
  tipo : String
  parsed : Option (Int × Int)
deriving DecidableEq

/-- Line item built for a kept tourism-plan request
(routes.py:1162-1192). -/
def lineaPlan (tasaValor : ℚ) (cantidad : Int) (p : PlanTuristico) : VentaDetalle :=
  let precioUsd := p.precio_usd.getD 0
  let totalUsd := precioUsd * (cantidad : ℚ)
  { producto_restaurante_id := none
    plan_turistico_id := some p.id
    cantidad := cantidad
    precio_unitario_usd := some precioUsd
    precio_unitario_bs := convertir precioUsd tasaValor
    total_usd := some totalUsd
    total_bs := convertir totalUsd tasaValor
    descripcion := some p.nombre }

/-- Line item built for a kept restaurant-product request
(routes.py:1169-1192). -/
def lineaProducto (tasaValor : ℚ) (cantidad : Int) (p : ProductoRestaurante) :
    VentaDetalle :=
  let precioUsd := p.precio_unitario_usd.getD 0
  let totalUsd := precioUsd * (cantidad : ℚ)
  { producto_restaurante_id := some p.id
    plan_turistico_id := none
    cantidad := cantidad
    precio_unitario_usd := some precioUsd
    precio_unitario_bs := convertir precioUsd tasaValor
    total_usd := some totalUsd
    total_bs := convertir totalUsd tasaValor
    descripcion := some p.nombre }

/-- The loop of `_procesar_items_venta` (routes.py:1149-1192): line items
in order, USD subtotal (rebracketed by recursion; `ℚ` addition is
associative-commutative), saw-a-kept-plan flag, saw-a-kept-product
flag. -/
def procesarItemsVentaAux (planes : List PlanTuristico)
    (productos : List ProductoRestaurante) (tasaValor : ℚ) :
    List ItemVentaForm → List VentaDetalle × ℚ × Bool × Bool
  | [] => ([], 0, false, false)
  | it :: resto =>
    let r := procesarItemsVentaAux planes productos tasaValor resto
    match it.parsed with
    | none => r
    | some (itemId, cantidad) =>
      if cantidad < 1 then r
      else if it.tipo = "plan" then
        match planes.find? (fun p => p.id == itemId) with
        | some p =>
          if p.activo then
            (lineaPlan tasaValor cantidad p :: r.1,
              p.precio_usd.getD 0 * (cantidad : ℚ) + r.2.1,
              true, r.2.2.2)
          else r
        | none => r
      else if it.tipo = "producto" then
        match productos.find? (fun p => p.id == itemId) with
        | some p =>
          if p.activo then
            (lineaProducto tasaValor cantidad p :: r.1,
              p.precio_unitario_usd.getD 0 * (cantidad : ℚ) + r.2.1,
              r.2.2.1, true)
          else r
        | none => r
      else r

/-- `_procesar_items_venta` (routes.py:1140-1201): line items, USD
subtotal, and the sale-type classification (routes.py:1193-1200). -/
def procesarItemsVenta (planes : List PlanTuristico)
    (productos : List ProductoRestaurante) (items : List ItemVentaForm)
    (tasaValor : ℚ) : List VentaDetalle × ℚ × String :=
  let r := procesarItemsVentaAux planes productos tasaValor items
  let tipoVenta :=
    if r.2.2.1 && r.2.2.2 then "mixta"
    else if r.2.2.1 then "plan_turistico"
    else if r.2.2.2 then "restaurante"
    else "restaurante"
  (r.1, r.2.1, tipoVenta)

/-- A form line the claims predict is kept as a tourism-plan line: type
"plan" after trimming and lowercasing, parseable id and quantity, quantity
at least 1, and an existing active plan under that id. -/
def esLineaPlan (planes : List PlanTuristico) (it : ItemVentaForm) : Bool :=
  (it.tipo == "plan") &&
    (match it.parsed with
     | some (itemId, cantidad) =>
       decide (1 ≤ cantidad) &&
         (match planes.find? (fun p => p.id == itemId) with
          | some p => p.activo
          | none => false)
     | none => false)

/-- A form line the claims predict is kept as a restaurant-product
line. -/
def esLineaProducto (productos : List ProductoRestaurante)
    (it : ItemVentaForm) : Bool :=
  (it.tipo == "producto") &&
    (match it.parsed with
     | some (itemId, cantidad) =>
       decide (1 ≤ cantidad) &&
         (match productos.find? (fun p => p.id == itemId) with
          | some p => p.activo
          | none => false)
     | none => false)

/-- The line item claim C8 predicts for one request: kept exactly when the
request references an existing active catalog item with quantity ≥ 1,
priced from the catalog. -/
def lineaEsperada (planes : List PlanTuristico)
    (productos : List ProductoRestaurante) (tasaValor : ℚ)
    (it : ItemVentaForm) : Option VentaDetalle :=
  match it.parsed with
  | none => none
  | some (itemId, cantidad) =>
    if cantidad < 1 then none
    else if it.tipo = "plan" then
      match planes.find? (fun p => p.id == itemId) with
      | some p => if p.activo then some (lineaPlan tasaValor cantidad p) else none
      | none => none
    else if it.tipo = "producto" then
      match productos.find? (fun p => p.id == itemId) with
      | some p => if p.activo then some (lineaProducto tasaValor cantidad p) else none
      | none => none
    else none

theorem procesarItemsVentaAux_eq (planes : List PlanTuristico)
    (productos : List ProductoRestaurante) (tasaValor : ℚ)
    (items : List ItemVentaForm) :
    procesarItemsVentaAux planes productos tasaValor items =
      (items.filterMap (lineaEsperada planes productos tasaValor),
       ((items.filterMap (lineaEsperada planes productos tasaValor)).map
         (fun d => d.total_usd.getD 0)).sum,
       items.any (esLineaPlan planes), items.any (esLineaProducto productos)) := by
  induction items with
  | nil => simp [procesarItemsVentaAux]
  | cons it resto ih =>
    simp only [procesarItemsVentaAux, ih, List.filterMap_cons, List.any_cons]
    rcases hp : it.parsed with _ | ⟨itemId, cantidad⟩
    · simp [lineaEsperada, esLineaPlan, esLineaProducto, hp]
    · by_cases hq : cantidad < 1
      · have hq2 : ¬ (1 ≤ cantidad) := by omega
        simp [lineaEsperada, esLineaPlan, esLineaProducto, hp, hq, hq2]
      · have hq2 : (1 : Int) ≤ cantidad := by omega
        by_cases htp : it.tipo = "plan"
        · rcases hf : planes.find? (fun p => p.id == itemId) with _ | p
          · simp [lineaEsperada, esLineaPlan, esLineaProducto, hp, hq, htp, hf]
          · by_cases ha : p.activo = true
            · simp [lineaEsperada, esLineaPlan, esLineaProducto, hp, hq, hq2,
                htp, hf, ha, lineaPlan]
            · simp [lineaEsperada, esLineaPlan, esLineaProducto, hp, hq, htp,
                hf, ha]
        · by_cases htr : it.tipo = "producto"
          · rcases hf : productos.find? (fun p => p.id == itemId) with _ | p
            · simp [lineaEsperada, esLineaPlan, esLineaProducto, hp, hq, htp,
                htr, hf]
            · by_cases ha : p.activo = true
              · simp [lineaEsperada, esLineaPlan, esLineaProducto, hp, hq, hq2,
                  htp, htr, hf, ha, lineaProducto]
              · simp [lineaEsperada, esLineaPlan, esLineaProducto, hp, hq, htp,
                  htr, hf, ha]
          · simp [lineaEsperada, esLineaPlan, esLineaProducto, hp, hq, htp, htr]

/-- C7: the composed sale's type is "mixta" exactly when the kept lines
include at least one plan and at least one product, "plan_turistico"
exactly when they include a plan and no product, and "restaurante" exactly
when no plan line was kept — products only, or nothing kept at all. -/
theorem clasificacionVenta_correcta (planes : List PlanTuristico)
    (productos : List ProductoRestaurante) (items : List ItemVentaForm)
    (tasaValor : ℚ) :
    ((procesarItemsVenta planes productos items tasaValor).2.2 = "mixta" ↔
      items.any (esLineaPlan planes) = true ∧
        items.any (esLineaProducto productos) = true) ∧
    ((procesarItemsVenta planes productos items tasaValor).2.2 = "plan_turistico" ↔
      items.any (esLineaPlan planes) = true ∧
        items.any (esLineaProducto productos) = false) ∧
    ((procesarItemsVenta planes productos items tasaValor).2.2 = "restaurante" ↔
      items.any (esLineaPlan planes) = false) := by
  have he := procesarItemsVentaAux_eq planes productos tasaValor items
  simp only [procesarItemsVenta, he]
  rcases h1 : items.any (esLineaPlan planes) <;>
    rcases h2 : items.any (esLineaProducto productos) <;> simp

/-- Witness for C7: one kept plan and one kept product classify as
"mixta". -/
theorem clasificacionVenta_correcta_aplicada :
    (procesarItemsVenta [⟨1, "tour", some 50, 2000, true⟩]
      [⟨1, "cafe", some 10, 400, true⟩]
      [⟨"plan", some (1, 1)⟩, ⟨"producto", some (1, 2)⟩] 40).2.2 = "mixta" :=
  (clasificacionVenta_correcta [⟨1, "tour", some 50, 2000, true⟩]
    [⟨1, "cafe", some 10, 400, true⟩]
    [⟨"plan", some (1, 1)⟩, ⟨"producto", some (1, 2)⟩] 40).1.mpr
    ⟨by decide, by decide⟩

/-- `_metodo_pago_valido` (routes.py:866-870): empty/absent passes, else
membership in the payment-method catalogue. -/
def metodoPagoValido (valor : Option String) : Bool :=
  match valor with
  | none => true
  | some v =>
    if v = "" then true
    else ["efectivo_usd", "efectivo_bs", "pago_movil", "zelle", "binance",
      "punto_venta"].contains v

/-- The POST branch of `crear_venta` (routes.py:1212-1264): composes the
sale from the form items under the active rate; `none` when no active rate
exists or no line item survives filtering (both redisplay the form). -/
def crearVenta (s : Sistema) (clienteId : Int) (usuarioId : Int)
    (reservacionId : Option Int) (items : List ItemVentaForm)
    (impuestoForm : Option ℚ) (metodoPago : Option String)
    (estadoForm : Option String) : Option (Venta × List VentaDetalle) :=
  match obtenerTasaActual s.tasas with
  | none => none
  | some tasa =>
    let tasaValor := tasa.tasa_bs_por_usd
    let r := procesarItemsVenta s.planes s.productos items tasaValor
    if r.1.isEmpty then none
    else
      let impuesto := impuestoForm.getD 0
      let total := r.2.1 + impuesto
      let mp := if metodoPago.isSome && !(metodoPagoValido metodoPago) then none
        else metodoPago
      some
        ({ cliente_id := clienteId
           usuario_id := usuarioId
           tipo := r.2.2
           reservacion_id := reservacionId
           subtotal_usd := some r.2.1
           subtotal_bs := convertir r.2.1 tasaValor
           impuesto_usd := some impuesto
           impuesto_bs := convertir impuesto tasaValor
           total_usd := some total
           total_bs := convertir total tasaValor
           metodo_pago := mp
           estado := estadoForm.getD "pagado" }, r.1)

theorem lineaEsperada_propiedades (planes : List PlanTuristico)
    (productos : List ProductoRestaurante) (v : ℚ) (it : ItemVentaForm)
    (d : VentaDetalle) (h : lineaEsperada planes productos v it = some d) :
    d.total_usd = some (d.precio_unitario_usd.getD 0 * (d.cantidad : ℚ)) ∧
    d.precio_unitario_bs = d.precio_unitario_usd.getD 0 * v ∧
    d.total_bs = d.total_usd.getD 0 * v ∧
    1 ≤ d.cantidad := by
  rcases hp : it.parsed with _ | ⟨itemId, cantidad⟩
  · simp [lineaEsperada, hp] at h
  · by_cases hq : cantidad < 1
    · simp [lineaEsperada, hp, hq] at h
    · have hq2 : (1 : Int) ≤ cantidad := by omega
      by_cases htp : it.tipo = "plan"
      · rcases hf : planes.find? (fun p => p.id == itemId) with _ | p
        · simp [lineaEsperada, hp, hq, htp, hf] at h
        · by_cases ha : p.activo = true
          · simp only [lineaEsperada, hp, hq, if_false, htp, if_true, hf, ha,
              ite_true, Option.some_inj, if_neg hq] at h
            subst h
            exact ⟨rfl, rfl, rfl, hq2⟩
          · simp [lineaEsperada, hp, hq, htp, hf, ha] at h
      · by_cases htr : it.tipo = "producto"
        · rcases hf : productos.find? (fun p => p.id == itemId) with _ | p
          · simp [lineaEsperada, hp, hq, htp, htr, hf] at h
          · by_cases ha : p.activo = true
            · simp [lineaEsperada, hp, hq, htp, htr, hf, ha] at h
              subst h
              exact ⟨rfl, rfl, rfl, hq2⟩
            · simp [lineaEsperada, hp, hq, htp, htr, hf, ha] at h
        · simp [lineaEsperada, hp, hq, htp, htr] at h

/-- C8: a form line is kept iff it references an existing active catalog
item with quantity at least 1; each kept line totals unit price × quantity
in USD; the sale's USD subtotal is the sum of the kept line totals, the
USD total adds the tax, and every Bs field equals its USD counterpart
times the active rate — the Bs subtotal/total are single conversions, not
sums of Bs lines. -/
theorem ventaTotales_correctos (s : Sistema) (cid uid : Int)
    (rid : Option Int) (items : List ItemVentaForm) (imp : Option ℚ)
    (mp est : Option String) :
    ∀ tasa, obtenerTasaActual s.tasas = some tasa →
    ∀ venta detalles,
      crearVenta s cid uid rid items imp mp est = some (venta, detalles) →
      detalles = items.filterMap
        (lineaEsperada s.planes s.productos tasa.tasa_bs_por_usd) ∧
      (∀ d ∈ detalles,
        d.total_usd = some (d.precio_unitario_usd.getD 0 * (d.cantidad : ℚ)) ∧
        d.precio_unitario_bs = d.precio_unitario_usd.getD 0 * tasa.tasa_bs_por_usd ∧
        d.total_bs = d.total_usd.getD 0 * tasa.tasa_bs_por_usd ∧
        1 ≤ d.cantidad) ∧
      venta.subtotal_usd = some ((detalles.map (fun d => d.total_usd.getD 0)).sum) ∧
      venta.total_usd =
        some ((detalles.map (fun d => d.total_usd.getD 0)).sum + imp.getD 0) ∧
      venta.subtotal_bs =
        (detalles.map (fun d => d.total_usd.getD 0)).sum * tasa.tasa_bs_por_usd ∧
      venta.impuesto_bs = imp.getD 0 * tasa.tasa_bs_por_usd ∧
      venta.total_bs =
        ((detalles.map (fun d => d.total_usd.getD 0)).sum + imp.getD 0) *
          tasa.tasa_bs_por_usd := by
  intro tasa htasa venta detalles h
  unfold crearVenta at h
  rw [htasa] at h
  simp only [procesarItemsVenta,
    procesarItemsVentaAux_eq s.planes s.productos tasa.tasa_bs_por_usd items] at h
  split at h
  · cases h
  · rw [Option.some_inj, Prod.mk.injEq] at h
    obtain ⟨hv, hd⟩ := h
    subst hd
    subst hv
    refine ⟨rfl, ?_, rfl, rfl, rfl, rfl, rfl⟩
    intro d hd
    rcases List.mem_filterMap.1 hd with ⟨it, _, hit⟩
    exact lineaEsperada_propiedades _ _ _ it d hit

/-- Witness for C8: the spec's concrete example — plan ×1 at 50 USD,
product ×2 at 10 USD, tax 6 USD, rate 40 — totals 70/76 USD and
2800/3040 Bs. -/
theorem ventaTotales_correctos_aplicado :
    ∃ venta detalles,
      crearVenta
        { tasas := [⟨1, 10, 40, true⟩]
          tipos := []
          habitaciones := []
          planes := [⟨1, "tour", some 50, 2000, true⟩]
          productos := [⟨1, "cafe", some 10, 400, true⟩]
          reservaciones := []
          ventas := []
          detalles := [] } 1 1 none
        [⟨"plan", some (1, 1)⟩, ⟨"producto", some (1, 2)⟩]
        (some 6) none none = some (venta, detalles) ∧
      venta.subtotal_usd = some 70 ∧ venta.total_usd = some 76 ∧
      venta.subtotal_bs = 2800 ∧ venta.total_bs = 3040 ∧
      venta.tipo = "mixta" := by
  obtain ⟨h1, h2, h3, h4, h5, h6, h7, h8⟩ :=
    ventaTotales_correctos
      { tasas := [⟨1, 10, 40, true⟩]
        tipos := []
        habitaciones := []
        planes := [⟨1, "tour", some 50, 2000, true⟩]
        productos := [⟨1, "cafe", some 10, 400, true⟩]
        reservaciones := []
        ventas := []
        detalles := [] } 1 1 none
      [⟨"plan", some (1, 1)⟩, ⟨"producto", some (1, 2)⟩]
      (some 6) none none ⟨1, 10, 40, true⟩ rfl _ _ rfl
  refine ⟨_, _, rfl, ?_, ?_, ?_, ?_, ?_⟩ <;>
    norm_num [procesarItemsVenta, procesarItemsVentaAux, lineaPlan, lineaProducto,
      convertir, masReciente, metodoPagoValido, List.find?,
      show ("producto" : String) ≠ "plan" from by decide]

/-- Python truthiness of an optional form string, as in
`bool(request.form.get('activo', True))` (routes.py:539): an absent key
defaults to `True`; a present value is truthy unless empty. -/
def campoActivoForm (v : Option String) : Bool :=
  match v with
  | none => true
  | some t => !(t == "")

/-- `crear_tasa` (routes.py:533-551) combined with the storage layer: the
route body performs no duplicate-date check, so inserting a second record
for an existing `fecha` trips the `unique=True` constraint on
`tasas.fecha` (models.py:131) at commit, and the uncaught error surfaces
as HTTP 500 with nothing stored; a fresh date inserts the new record and
redirects (302). -/
def crearTasa (tasas : List Tasa) (nuevoId : Int) (fecha : Int)
    (valorForm : Option ℚ) (activoForm : Option String) : Nat × List Tasa :=
  let nueva : Tasa :=
    { id := nuevoId
      fecha := fecha
      tasa_bs_por_usd := valorForm.getD 0
      activo := campoActivoForm activoForm }
  if tasas.any (fun t => t.fecha == fecha) then (500, tasas)
  else (302, tasas ++ [nueva])

/-- Counterexample to C6 as stated: registering a rate for a date that
already holds one fails with HTTP 500 (an unhandled unique-constraint
violation at commit), not the claimed 400 — though it does store
nothing. -/
theorem crearTasa_contraejemploEstado :
    (crearTasa [⟨1, 100, 36, true⟩] 2 100 (some 40) none).1 = 500 ∧
    (crearTasa [⟨1, 100, 36, true⟩] 2 100 (some 40) none).1 ≠ 400 ∧
    (crearTasa [⟨1, 100, 36, true⟩] 2 100 (some 40) none).2 = [⟨1, 100, 36, true⟩] :=
  ⟨rfl, by decide, rfl⟩

/-- C6 (amended): a duplicate effective date makes the registration fail —
as an unhandled database unique-constraint error reported with HTTP 500,
not 400 — storing nothing, while a fresh date appends a new record that is
active under the form's default. -/
theorem crearTasa_duplicadoCorregido (tasas : List Tasa) (nuevoId : Int)
    (fecha : Int) (valorForm : Option ℚ) (activoForm : Option String) :
    ((∃ t ∈ tasas, t.fecha = fecha) →
      crearTasa tasas nuevoId fecha valorForm activoForm = (500, tasas)) ∧
    ((∀ t ∈ tasas, t.fecha ≠ fecha) →
      crearTasa tasas nuevoId fecha valorForm activoForm =
        (302, tasas ++ [⟨nuevoId, fecha, valorForm.getD 0, campoActivoForm activoForm⟩])) ∧
    campoActivoForm none = true := by
  refine ⟨?_, ?_, rfl⟩
  · rintro ⟨t, ht, hf⟩
    have hd : tasas.any (fun t2 => t2.fecha == fecha) = true := by
      rw [List.any_eq_true]
      exact ⟨t, ht, by simp [hf]⟩
    simp [crearTasa, hd]
  · intro h
    have hd : tasas.any (fun t2 => t2.fecha == fecha) = false := by
      rw [List.any_eq_false]
      intro t ht
      simp [h t ht]
    simp [crearTasa, hd]

/-- Witness for the amended C6: a fresh-date registration stores an active
record. -/
theorem crearTasa_duplicadoCorregido_aplicado :
    crearTasa [⟨1, 100, 36, true⟩] 2 200 (some 40) none =
      (302, [⟨1, 100, 36, true⟩, ⟨2, 200, 40, true⟩]) := by
  have h := (crearTasa_duplicadoCorregido [⟨1, 100, 36, true⟩] 2 200
    (some 40) none).2.1 (by decide)
  rw [h]
  rfl

/-- One element of `items` in the JSON body of `POST /api/ventas`
(routes.py:916-930); `none` marks an absent key or JSON null. -/
structure ApiItemVenta where
  producto_restaurante_id : Option Int
  plan_turistico_id : Option Int
  cantidad : Option Int
  precio_unitario_usd : Option ℚ
  descripcion : Option String
deriving DecidableEq

/-- `int(item.get('cantidad') or 1)` (routes.py:917): null/absent and the
falsy `0` become the default `1`; any other integer — negative included —
is taken as sent. -/
def cantidadApi (c : Option Int) : Int :=
  match c with
  | none => 1
  | some n => if n = 0 then 1 else n

/-- The line item `api_crear_venta` builds for one request item
(routes.py:916-931): no catalog lookup and no filtering; the unit price is
the client-supplied `precio_unitario_usd` (falsy values become 0). -/
def detalleApi (tasaValor : ℚ) (it : ApiItemVenta) : VentaDetalle :=
  let cantidad := cantidadApi it.cantidad
  let precioUsd := it.precio_unitario_usd.getD 0
  let totalUsd := precioUsd * (cantidad : ℚ)
  { producto_restaurante_id := it.producto_restaurante_id
    plan_turistico_id := it.plan_turistico_id
    cantidad := cantidad
    precio_unitario_usd := some precioUsd
    precio_unitario_bs := convertir precioUsd tasaValor
    total_usd := some totalUsd
    total_bs := convertir totalUsd tasaValor
    descripcion := it.descripcion }

/-- The item loop of `api_crear_venta` (routes.py:912-935): one line per
submitted item, and the USD subtotal accumulates every line total. -/
def apiCrearVentaItems (tasaValor : ℚ) (items : List ApiItemVenta) :
    List VentaDetalle × ℚ :=
  let detalles := items.map (detalleApi tasaValor)
  (detalles, (detalles.map (fun d => d.total_usd.getD 0)).sum)

/-- C10: on the JSON sale endpoint no item is skipped — one stored line
per submitted item; a `cantidad` of 0, null, or absent becomes the default
1, while any other value, negative included, is stored as sent; the stored
unit price is the client-supplied `precio_unitario_usd` (default 0), so a
negative quantity with a positive price yields a negative line total,
which the subtotal — the sum of the line totals — absorbs. -/
theorem apiVentaItems_comportamiento (tasaValor : ℚ) (items : List ApiItemVenta) :
    (apiCrearVentaItems tasaValor items).1.length = items.length ∧
    (apiCrearVentaItems tasaValor items).2 =
      (((apiCrearVentaItems tasaValor items).1).map
        (fun d => d.total_usd.getD 0)).sum ∧
    (∀ it ∈ items,
      detalleApi tasaValor it ∈ (apiCrearVentaItems tasaValor items).1 ∧
      (it.cantidad = none ∨ it.cantidad = some 0 →
        (detalleApi tasaValor it).cantidad = 1) ∧
      (∀ n, it.cantidad = some n → n ≠ 0 →
        (detalleApi tasaValor it).cantidad = n) ∧
      (detalleApi tasaValor it).precio_unitario_usd =
        some (it.precio_unitario_usd.getD 0) ∧
      (detalleApi tasaValor it).total_usd =
        some (it.precio_unitario_usd.getD 0 *
          ((detalleApi tasaValor it).cantidad : ℚ)) ∧
      (∀ n q, it.cantidad = some n → n < 0 → it.precio_unitario_usd = some q →
        0 < q → (detalleApi tasaValor it).total_usd.getD 0 < 0)) := by
  refine ⟨by simp [apiCrearVentaItems], rfl, ?_⟩
  intro it hit
  refine ⟨by simp [apiCrearVentaItems]; exact ⟨it, hit, rfl⟩, ?_, ?_, rfl, rfl, ?_⟩
  · rintro (h | h) <;> simp [detalleApi, cantidadApi, h]
  · intro n h hn
    simp [detalleApi, cantidadApi, h, hn]
  · intro n q hc hn hq hq0
    have h1 : (detalleApi tasaValor it).cantidad = n := by
      simp [detalleApi, cantidadApi, hc, show n ≠ 0 from by omega]
    have h2 : (detalleApi tasaValor it).total_usd.getD 0 =
        it.precio_unitario_usd.getD 0 * ((detalleApi tasaValor it).cantidad : ℚ) := rfl
    rw [h2, h1, hq]
    simp only [Option.getD_some]
    have hncast : (n : ℚ) < 0 := by exact_mod_cast hn
    exact mul_neg_of_pos_of_neg hq0 hncast

/-- Witness for C10: a negative quantity is stored as sent and its line
total is negative. -/
theorem apiVentaItems_comportamiento_aplicado :
    (detalleApi 40 ⟨none, some 1, some (-2), some 10, none⟩).cantidad = -2 ∧
    (detalleApi 40 ⟨none, some 1, some (-2), some 10, none⟩).total_usd.getD 0 < 0 := by
  obtain ⟨-, -, h⟩ := apiVentaItems_comportamiento 40
    [⟨none, some 1, some (-2), some 10, none⟩]
  obtain ⟨-, -, hneg, -, -, htot⟩ := h ⟨none, some 1, some (-2), some 10, none⟩
    (by simp)
  exact ⟨hneg (-2) rfl (by norm_num), htot (-2) 10 rfl (by norm_num) rfl (by norm_num)⟩

/-- C9: the conversion is exactly `usd × rate` — the code applies no
rounding step — and it is monotone in the amount and in the rate over the
claim's domain of non-negative amounts and positive rates. -/
theorem convertir_monotona :
    (∀ u v : ℚ, convertir u v = u * v) ∧
    (∀ u u2 v : ℚ, 0 ≤ u → u ≤ u2 → 0 < v → convertir u v ≤ convertir u2 v) ∧
    (∀ u v v2 : ℚ, 0 ≤ u → 0 < v → v ≤ v2 → convertir u v ≤ convertir u v2) := by
  refine ⟨fun u v => rfl, ?_, ?_⟩
  · intro u u2 v _ h hv
    exact mul_le_mul_of_nonneg_right h (le_of_lt hv)
  · intro u v v2 hu _ h
    exact mul_le_mul_of_nonneg_left h hu

/-- Witness for C9 at concrete amounts and rates. -/
theorem convertir_monotona_aplicada :
    convertir 70 40 ≤ convertir 76 40 :=
  convertir_monotona.2.1 70 76 40 (by norm_num) (by norm_num) (by norm_num)

end Hotel
